import Mathlib

/-!
Shallow embedding of the native activity tracker
(`apps/desktop/src-tauri/src/activity_tracker.rs` together with the
event-based poll loop of `apps/desktop/src-tauri/src/commands.rs`).

Modelling conventions:
* timestamps (`chrono::DateTime<Utc>`) are integers counting milliseconds;
  every place where the Rust code calls `Utc::now()` becomes an explicit
  `now : Int` parameter;
* `chrono::Duration::num_seconds` (truncation towards zero of the
  millisecond difference) is `numSeconds`;
* `u64` counters are modelled as `Nat` (the counters at play never wrap);
* strings stay `String`;
* the platform probe (`get_macos_activity` / `get_windows_activity`) is an
  external oracle, passed in as an `Option NativeActivity` argument;
* network delivery of a completed session is external: its outcome is an
  `Option String` oracle argument (`none` = success, `some e` = error `e`).
-/

namespace ActivityTracker

/-- `NativeActivity` (activity_tracker.rs): one snapshot from the probe. -/
structure NativeActivity where
  app_name : String
  window_title : String
  bundle_id : Option String
  is_browser : Bool
  idle_seconds : Nat
  timestamp : Int
  deriving Repr, DecidableEq

/-- `ActivitySession` (activity_tracker.rs): the live session. -/
structure ActivitySession where
  app_name : String
  window_title : String
  bundle_id : Option String
  is_browser : Bool
  start_time : Int
  last_heartbeat : Int
  deriving Repr, DecidableEq

/-- `CompletedSession` (activity_tracker.rs): an ended session ready for the
backend; `start_time`/`end_time` keep the millisecond timestamps that the Rust
code formats as RFC 3339 strings. -/
structure CompletedSession where
  app_name : String
  window_title : String
  url : Option String
  start_time : Int
  end_time : Int
  duration : Int
  source : String
  deriving Repr, DecidableEq

/-- `EventTrackerState` (activity_tracker.rs). -/
structure EventTrackerState where
  current_session : Option ActivitySession
  is_tracking : Bool
  is_idle : Bool
  idle_threshold_seconds : Nat
  sessions_sent : Nat
  last_send_error : Option String
  deriving Repr, DecidableEq

/-- `ActivityState` (activity_tracker.rs): the legacy display state; its
`last_update` keeps the millisecond timestamp the code stores as RFC 3339. -/
structure ActivityState where
  current_activity : Option NativeActivity
  is_tracking : Bool
  is_idle : Bool
  idle_threshold_seconds : Nat
  last_update : Option Int
  deriving Repr, DecidableEq

/-- The two mutexed states held by `ActivityTracker`. -/
structure Tracker where
  state : ActivityState
  event_state : EventTrackerState
  deriving Repr, DecidableEq

/-- `ActivityState::default()`. -/
def ActivityState.default : ActivityState :=
  { current_activity := none
    is_tracking := true
    is_idle := false
    idle_threshold_seconds := 300
    last_update := none }

/-- `ActivityTracker::new()`. -/
def Tracker.new : Tracker :=
  { state := ActivityState.default
    event_state :=
      { current_session := none
        is_tracking := true
        is_idle := false
        idle_threshold_seconds := 300
        sessions_sent := 0
        last_send_error := none } }

/-- `chrono::Duration::num_seconds` on a duration of `ms` milliseconds:
chrono stores seconds = `ms / 1000` (floor division) and a non-negative
sub-second part `ms % 1000`, and `num_seconds` adds one back when the
duration is negative with a non-zero sub-second part, i.e. it truncates
towards zero. -/
def numSeconds (ms : Int) : Int :=
  let secs := ms / 1000
  let nanos := ms % 1000
  if secs < 0 ∧ 0 < nanos then secs + 1 else secs

/-- `ActivityTracker::set_tracking` (updates both states). -/
def setTracking (enabled : Bool) (tr : Tracker) : Tracker :=
  { state := { tr.state with is_tracking := enabled }
    event_state := { tr.event_state with is_tracking := enabled } }

/-- `ActivityTracker::set_idle_threshold` (updates both states). -/
def setIdleThreshold (seconds : Nat) (tr : Tracker) : Tracker :=
  { state := { tr.state with idle_threshold_seconds := seconds }
    event_state := { tr.event_state with idle_threshold_seconds := seconds } }

/-- `ActivityTracker::update_activity`. -/
def updateActivity (activity : NativeActivity) (now : Int) (st : ActivityState) :
    ActivityState :=
  { st with
    is_idle := st.idle_threshold_seconds ≤ activity.idle_seconds
    current_activity := some activity
    last_update := some now }

/-- `ActivityTracker::has_activity_changed`. -/
def hasActivityChanged (st : EventTrackerState) (new_activity : NativeActivity) :
    Bool :=
  match st.current_session with
  | some session =>
      session.app_name != new_activity.app_name ||
      session.window_title != new_activity.window_title
  | none => true

/-- `ActivityTracker::start_session`. -/
def startSession (activity : NativeActivity) (now : Int) (st : EventTrackerState) :
    EventTrackerState :=
  { st with
    current_session := some
      { app_name := activity.app_name
        window_title := activity.window_title
        bundle_id := activity.bundle_id
        is_browser := activity.is_browser
        start_time := now
        last_heartbeat := now }
    is_idle := false }

/-- `ActivityTracker::update_heartbeat`. -/
def updateHeartbeat (now : Int) (st : EventTrackerState) : EventTrackerState :=
  match st.current_session with
  | some session =>
      { st with current_session := some { session with last_heartbeat := now } }
  | none => st

/-- `ActivityTracker::finalize_session`: takes the live session, computes
the duration in whole seconds to `now`, and returns a `CompletedSession`
only when that duration is at least 1. -/
def finalizeSession (now : Int) (st : EventTrackerState) :
    EventTrackerState × Option CompletedSession :=
  match st.current_session with
  | some session =>
      let duration := numSeconds (now - session.start_time)
      if 1 ≤ duration then
        ({ st with current_session := none },
         some
           { app_name := session.app_name
             window_title := session.window_title
             url := none
             start_time := session.start_time
             end_time := now
             duration := duration
             source := "native_event" })
      else
        ({ st with current_session := none }, none)
  | none => (st, none)

/-- `ActivityTracker::handle_idle`. -/
def handleIdle (now : Int) (st : EventTrackerState) :
    EventTrackerState × Option CompletedSession :=
  if st.is_idle then (st, none)
  else finalizeSession now { st with is_idle := true }

/-- `ActivityTracker::handle_active`. -/
def handleActive (activity : NativeActivity) (now : Int) (st : EventTrackerState) :
    EventTrackerState :=
  if st.is_idle then startSession activity now { st with is_idle := false }
  else st

/-- `ActivityTracker::record_send_success`. -/
def recordSendSuccess (st : EventTrackerState) : EventTrackerState :=
  { st with sessions_sent := st.sessions_sent + 1, last_send_error := none }

/-- `ActivityTracker::record_send_error`. -/
def recordSendError (error : String) (st : EventTrackerState) : EventTrackerState :=
  { st with last_send_error := some error }

/-- `ActivityTracker::get_current_activity`: returns `none` without touching
the platform probe when tracking is disabled, otherwise returns whatever the
platform probe produced (the probe is the external oracle `probe`).  The
second component records whether the probe was queried. -/
def getCurrentActivity (st : ActivityState) (probe : Option NativeActivity) :
    Option NativeActivity × Bool :=
  if st.is_tracking then (probe, true) else (none, false)

/-- `ActivityPayload` (activity_tracker.rs): the real-time record shape. -/
structure ActivityPayload where
  app_name : String
  window_title : String
  url : Option String
  is_idle : Bool
  idle_seconds : Nat
  timestamp : Int
  source : String
  deriving Repr, DecidableEq

/-- `impl From<NativeActivity> for ActivityPayload` (activity_tracker.rs):
the conversion used by the legacy `send_activity_to_backend` path. -/
def NativeActivity.toActivityPayload (activity : NativeActivity) : ActivityPayload :=
  { app_name := activity.app_name
    window_title := activity.window_title
    url := none
    is_idle := false
    idle_seconds := activity.idle_seconds
    timestamp := activity.timestamp
    source := "native" }

/-- The JSON payload built by `send_current_activity_to_backend`
(activity_tracker.rs lines 705-713): the record the event-based poll loop
forwards per tick to the real-time current-activity sink.  `now` is the
`chrono::Utc::now()` the function takes for the `timestamp` field; the
`is_idle` field uses the hard-coded 300-second threshold of that function. -/
def currentActivityPayload (activity : NativeActivity) (now : Int) : ActivityPayload :=
  { app_name := activity.app_name
    window_title := activity.window_title
    url := none
    is_idle := decide (300 ≤ activity.idle_seconds)
    idle_seconds := activity.idle_seconds
    timestamp := now
    source := "tauri" }

/-- Delivery bookkeeping done by the poll loop after `send_session_to_backend`:
`Ok` records a success, `Err e` records the error message. -/
def recordDelivery (outcome : Option String) (st : EventTrackerState) :
    EventTrackerState :=
  match outcome with
  | none => recordSendSuccess st
  | some e => recordSendError e st

/-- Result of one tick of the event-based poll loop on the event state. -/
structure TickResult where
  event_state : EventTrackerState
  completed : Option CompletedSession
  clobber : Bool
  deriving Repr, DecidableEq

/-- One tick of the event-based poll loop of `start_event_based_tracking`
(commands.rs lines 1030-1067), restricted to the `EventTrackerState`.
`cap` is the loop's captured `idle_threshold` local (from the `config` at
loop start); `t1` and `t2` are the first and second `Utc::now()` calls the
tick can make; `send` is the network outcome oracle for the session
delivery attempt.  The `clobber` field instruments the two `start_session`
call sites: it is `true` exactly when `start_session` is applied to a state
that still holds a live session (which would overwrite it unfinalized). -/
def processTick (cap : Nat) (activity : NativeActivity) (t1 t2 : Int)
    (send : Option String) (st : EventTrackerState) : TickResult :=
  if cap ≤ activity.idle_seconds then
    match handleIdle t1 st with
    | (st1, some c) =>
        { event_state := recordDelivery send st1, completed := some c
          clobber := false }
    | (st1, none) =>
        { event_state := st1, completed := none, clobber := false }
  else
    if hasActivityChanged st activity then
      let (st1, out) := finalizeSession t1 st
      let st2 := match out with
        | some _ => recordDelivery send st1
        | none => st1
      let clobber1 := st2.current_session.isSome
      let st3 := startSession activity t2 st2
      let clobber2 := st3.is_idle && st3.current_session.isSome
      { event_state := handleActive activity t2 st3, completed := out
        clobber := clobber1 || clobber2 }
    else
      let st1 := updateHeartbeat t1 st
      let clobber2 := st1.is_idle && st1.current_session.isSome
      { event_state := handleActive activity t2 st1, completed := none
        clobber := clobber2 }

/-- The per-tick inputs of the poll loop: the snapshot the probe returned,
the clock values, and the delivery outcome oracle. -/
structure TickInput where
  activity : NativeActivity
  t1 : Int
  t2 : Int
  send : Option String
  deriving Repr, DecidableEq

/-- Result of a sequence of ticks. -/
structure TraceResult where
  event_state : EventTrackerState
  completed : List CompletedSession
  clobber : Bool
  deriving Repr, DecidableEq

/-- A sequence of ticks of the event-based poll loop: folds `processTick`,
collecting every emitted `CompletedSession` in order and whether any tick
ever applied `start_session` over a still-live session. -/
def processTrace (cap : Nat) (st : EventTrackerState) :
    List TickInput → TraceResult
  | [] => { event_state := st, completed := [], clobber := false }
  | i :: rest =>
      let r := processTick cap i.activity i.t1 i.t2 i.send st
      let rec' := processTrace cap r.event_state rest
      { event_state := rec'.event_state
        completed := r.completed.toList ++ rec'.completed
        clobber := r.clobber || rec'.clobber }

/-- Result of one full tick of the driver including snapshot acquisition. -/
structure DriverTickResult where
  tracker : Tracker
  completed : Option CompletedSession
  probed : Bool
  deriving Repr, DecidableEq

/-- One tick of the poll loop including the snapshot acquisition step
(`state.get_native_activity()` in commands.rs line 1028, which calls
`get_current_activity`): when no snapshot is produced the whole per-tick
body is skipped.  `t3` is the `Utc::now()` of the final `update_activity`
call; `probed` records whether the platform probe was queried. -/
def driverTick (cap : Nat) (probe : Option NativeActivity) (t1 t2 t3 : Int)
    (send : Option String) (tr : Tracker) : DriverTickResult :=
  match getCurrentActivity tr.state probe with
  | (some activity, probed) =>
      let r := processTick cap activity t1 t2 send tr.event_state
      { tracker :=
          { state := updateActivity activity t3 tr.state
            event_state := r.event_state }
        completed := r.completed
        probed := probed }
  | (none, probed) =>
      { tracker := tr, completed := none, probed := probed }

/-- The state-mutating operations of `ActivityTracker` on the event state
(the poll-loop ticks are compositions of these). -/
inductive Op where
  | startSession (activity : NativeActivity)
  | updateHeartbeat
  | finalizeSession
  | handleIdle
  | handleActive (activity : NativeActivity)
  | setTracking (enabled : Bool)
  | setIdleThreshold (seconds : Nat)
  | recordSendSuccess
  | recordSendError (error : String)
  deriving Repr, DecidableEq

/-- Effect of each `ActivityTracker` operation on the `EventTrackerState`;
`t` stands for the `Utc::now()` of the operations that read the clock. -/
def applyOp (op : Op) (t : Int) (st : EventTrackerState) : EventTrackerState :=
  match op with
  | .startSession activity => startSession activity t st
  | .updateHeartbeat => updateHeartbeat t st
  | .finalizeSession => (finalizeSession t st).1
  | .handleIdle => (handleIdle t st).1
  | .handleActive activity => handleActive activity t st
  | .setTracking enabled => { st with is_tracking := enabled }
  | .setIdleThreshold seconds => { st with idle_threshold_seconds := seconds }
  | .recordSendSuccess => recordSendSuccess st
  | .recordSendError error => recordSendError error st

/-- Runs a sequence of timed operations. -/
def runOps (st : EventTrackerState) : List (Op × Int) → EventTrackerState
  | [] => st
  | (op, t) :: rest => runOps (applyOp op t st) rest

/-- The clock never goes backwards along a list of `Utc::now()` readings. -/
def timesMono : List Int → Bool
  | [] => true
  | [_] => true
  | t :: t' :: rest => decide (t ≤ t') && timesMono (t' :: rest)

/-- A sample snapshot: an editor window, user active. -/
def editorSnap : NativeActivity :=
  { app_name := "Editor", window_title := "main.go", bundle_id := some "dev.editor"
    is_browser := false, idle_seconds := 0, timestamp := 0 }

/-- A sample snapshot equal to `editorSnap` on name and title but with
different `bundle_id` and `is_browser` metadata. -/
def editorSnapMeta : NativeActivity :=
  { app_name := "Editor", window_title := "main.go", bundle_id := some "other.id"
    is_browser := true, idle_seconds := 0, timestamp := 7 }

/-- A sample snapshot with 50 seconds of idle time. -/
def idle50Snap : NativeActivity :=
  { app_name := "Editor", window_title := "main.go", bundle_id := none
    is_browser := false, idle_seconds := 50, timestamp := 0 }

/-- A sample snapshot with 400 seconds of idle time. -/
def idle400Snap : NativeActivity :=
  { app_name := "Editor", window_title := "main.go", bundle_id := none
    is_browser := false, idle_seconds := 400, timestamp := 0 }

/-- The reachability invariant of the event state: whenever the idle flag is
set, no session is live (`handle_idle` finalizes before the flag can be
observed set, and `start_session` clears the flag). -/
def IdleInv (st : EventTrackerState) : Prop :=
  st.is_idle = true → st.current_session = none

/-- Heartbeat invariant relative to a clock bound `t`: any live session was
started no later than its last heartbeat, and its heartbeat is no later
than `t`. -/
def HbInv (st : EventTrackerState) (t : Int) : Prop :=
  ∀ s, st.current_session = some s →
    s.start_time ≤ s.last_heartbeat ∧ s.last_heartbeat ≤ t

/-- A sample event state holding a live session started at time 0. -/
def sessionState0 : EventTrackerState :=
  { Tracker.new.event_state with
    current_session := some
      { app_name := "Editor", window_title := "main.go", bundle_id := none
        is_browser := false, start_time := 0, last_heartbeat := 0 } }

/-- The completed session `finalize_session` produces from `sessionState0`
at time 1500 ms. -/
def completed1500 : CompletedSession :=
  { app_name := "Editor", window_title := "main.go", url := none
    start_time := 0, end_time := 1500, duration := 1, source := "native_event" }

/-- A sample timed operation sequence: start a session at t = 5, heartbeat
at t = 9. -/
def witnessOps : List (Op × Int) :=
  [(Op.startSession editorSnap, 5), (Op.updateHeartbeat, 9)]

/-- The live session `witnessOps` leaves behind. -/
def witnessSession : ActivitySession :=
  { app_name := "Editor", window_title := "main.go", bundle_id := some "dev.editor"
    is_browser := false, start_time := 5, last_heartbeat := 9 }

/-! Helper lemmas about the individual tracker operations. -/

lemma one_le_numSeconds_iff (ms : Int) : 1 ≤ numSeconds ms ↔ 1000 ≤ ms := by
  dsimp only [numSeconds]
  split <;> omega

lemma numSeconds_nonneg_of_one_le {ms : Int} (h : 1 ≤ numSeconds ms) :
    0 ≤ numSeconds ms := le_trans (by norm_num) h

lemma finalizeSession_fst (t : Int) (st : EventTrackerState) :
    (finalizeSession t st).1 = { st with current_session := none } := by
  obtain ⟨cs, trk, idl, thr, sent, err⟩ := st
  cases cs with
  | none => rfl
  | some s =>
      simp only [finalizeSession]
      split <;> rfl

lemma finalizeSession_isSome (now : Int) (st : EventTrackerState) :
    (finalizeSession now st).2.isSome = true ↔
      ∃ s, st.current_session = some s ∧ 1000 ≤ now - s.start_time := by
  obtain ⟨cs, trk, idl, thr, sent, err⟩ := st
  cases cs with
  | none => simp [finalizeSession]
  | some s =>
      simp only [finalizeSession]
      by_cases hge : 1 ≤ numSeconds (now - s.start_time)
      · rw [if_pos hge]
        simp only [Option.isSome_some, true_iff]
        exact ⟨s, rfl, (one_le_numSeconds_iff _).1 hge⟩
      · rw [if_neg hge]
        simp only [Option.isSome_none, Bool.false_eq_true, false_iff]
        rintro ⟨s', hs', hle⟩
        have hss : s = s' := Option.some.inj hs'
        exact hge ((one_le_numSeconds_iff _).2 (hss ▸ hle))

lemma handleIdle_fst (t : Int) (st : EventTrackerState) :
    (handleIdle t st).1 =
      if st.is_idle then st
      else { st with is_idle := true, current_session := none } := by
  by_cases h : st.is_idle <;> simp [handleIdle, h, finalizeSession_fst]

lemma recordDelivery_current_session (outcome : Option String)
    (st : EventTrackerState) :
    (recordDelivery outcome st).current_session = st.current_session := by
  cases outcome <;> rfl

lemma recordDelivery_is_idle (outcome : Option String) (st : EventTrackerState) :
    (recordDelivery outcome st).is_idle = st.is_idle := by
  cases outcome <;> rfl

lemma updateHeartbeat_is_idle (t : Int) (st : EventTrackerState) :
    (updateHeartbeat t st).is_idle = st.is_idle := by
  unfold updateHeartbeat
  cases st.current_session <;> rfl

lemma updateHeartbeat_isSome (t : Int) (st : EventTrackerState) :
    (updateHeartbeat t st).current_session.isSome =
      st.current_session.isSome := by
  unfold updateHeartbeat
  cases h : st.current_session <;> simp [h]

lemma startSession_is_idle (a : NativeActivity) (t : Int)
    (st : EventTrackerState) : (startSession a t st).is_idle = false := rfl

lemma handleActive_is_idle (a : NativeActivity) (t : Int)
    (st : EventTrackerState) : (handleActive a t st).is_idle = false := by
  unfold handleActive
  by_cases h : st.is_idle <;> simp [h, startSession_is_idle]

/-- C3: `finalize_session` always clears the live session, returns a
`CompletedSession` exactly when at least one whole second (1000 ms) elapsed
between the session's `start_time` and the finalizing `now`, and never
touches the delivery counter or the last-error slot (a discarded short
session is silently dropped, not counted). -/
theorem finalizeSession_spec (now : Int) (st : EventTrackerState) :
    (finalizeSession now st).1.current_session = none ∧
    ((finalizeSession now st).2.isSome = true ↔
      ∃ s, st.current_session = some s ∧ 1000 ≤ now - s.start_time) ∧
    (finalizeSession now st).1.sessions_sent = st.sessions_sent ∧
    (finalizeSession now st).1.last_send_error = st.last_send_error := by
  exact ⟨by simp [finalizeSession_fst], finalizeSession_isSome now st,
    by simp [finalizeSession_fst], by simp [finalizeSession_fst]⟩

/-- C4: `has_activity_changed` returns `true` exactly when no session is
live or the snapshot's `app_name` or `window_title` differs from the live
session's; when both match, it returns `false` even if `bundle_id` or
`is_browser` differ. -/
theorem hasActivityChanged_spec (st : EventTrackerState) (a : NativeActivity) :
    (hasActivityChanged st a = true ↔
      st.current_session = none ∨
        ∃ s, st.current_session = some s ∧
          (s.app_name ≠ a.app_name ∨ s.window_title ≠ a.window_title)) ∧
    (∀ s, st.current_session = some s → s.app_name = a.app_name →
      s.window_title = a.window_title → hasActivityChanged st a = false) := by
  cases h : st.current_session with
  | none => simp [hasActivityChanged, h]
  | some s =>
      constructor
      · simp [hasActivityChanged, h]
      · intro s' hs' h1 h2
        have hss : s = s' := Option.some.inj hs'
        subst hss
        simp [hasActivityChanged, h, h1, h2]

/-- C4 witness: with a live `Editor`/`main.go` session, a snapshot with the
same name and title but a different `bundle_id` and `is_browser` flag is
not a change. -/
theorem hasActivityChanged_spec_witness :
    hasActivityChanged sessionState0 editorSnapMeta = false :=
  (hasActivityChanged_spec sessionState0 editorSnapMeta).2
    { app_name := "Editor", window_title := "main.go", bundle_id := none
      is_browser := false, start_time := 0, last_heartbeat := 0 }
    (by decide) rfl rfl

/-- C6: every `CompletedSession` produced by `finalize_session` has
`duration` equal to `end_time - start_time` truncated to whole seconds
(`numSeconds`), and its duration is never negative. -/
theorem completedSession_duration (now : Int) (st : EventTrackerState)
    (c : CompletedSession) (h : (finalizeSession now st).2 = some c) :
    c.duration = numSeconds (c.end_time - c.start_time) ∧ 0 ≤ c.duration := by
  obtain ⟨cs, trk, idl, thr, sent, err⟩ := st
  cases cs with
  | none => simp [finalizeSession] at h
  | some s =>
      simp only [finalizeSession] at h
      by_cases hge : 1 ≤ numSeconds (now - s.start_time)
      · rw [if_pos hge] at h
        have hc := Option.some.inj h
        subst hc
        exact ⟨rfl, numSeconds_nonneg_of_one_le hge⟩
      · rw [if_neg hge] at h
        simp at h

/-- C6 witness: finalizing the session started at t = 0 ms at
t = 1500 ms produces a `CompletedSession` of duration 1 ≥ 0 with
`duration = numSeconds (end_time - start_time)`. -/
theorem completedSession_duration_witness :
    (finalizeSession 1500 sessionState0).2 = some completed1500 ∧
    completed1500.duration =
      numSeconds (completed1500.end_time - completed1500.start_time) ∧
    0 ≤ completed1500.duration :=
  ⟨by decide,
   completedSession_duration 1500 sessionState0 completed1500 (by decide)⟩

/-- C7 counterexample: the record the poll loop forwards per tick to the
real-time current-activity sink (built by `send_current_activity_to_backend`)
does not carry `source: "native"` — at the concrete snapshot `editorSnap`
its `source` is `"tauri"`. -/
theorem currentActivityPayload_not_native :
    ¬ (currentActivityPayload editorSnap 0).source = "native" := by decide

/-- C7 amended: every per-tick real-time record built by
`send_current_activity_to_backend` carries `source: "tauri"`; the
`"native"` source tag appears only on the `ActivityPayload` conversion used
by the legacy `send_activity_to_backend` path. -/
theorem currentActivityPayload_source (a : NativeActivity) (now : Int) :
    (currentActivityPayload a now).source = "tauri" ∧
    a.toActivityPayload.source = "native" :=
  ⟨rfl, rfl⟩

lemma handleIdle_fst_is_idle (t : Int) (st : EventTrackerState) :
    (handleIdle t st).1.is_idle = true := by
  rw [handleIdle_fst]
  by_cases h : st.is_idle <;> simp [h]

lemma processTick_is_idle (cap : Nat) (a : NativeActivity) (t1 t2 : Int)
    (send : Option String) (st : EventTrackerState) :
    (processTick cap a t1 t2 send st).event_state.is_idle =
      decide (cap ≤ a.idle_seconds) := by
  unfold processTick
  by_cases hcap : cap ≤ a.idle_seconds
  · rw [if_pos hcap]
    have h1 := handleIdle_fst_is_idle t1 st
    rcases hh : handleIdle t1 st with ⟨st1, out⟩
    rw [hh] at h1
    simp only at h1
    cases out <;> simp [recordDelivery_is_idle, h1, hcap]
  · rw [if_neg hcap]
    cases hch : hasActivityChanged st a
    · simp only [hch, Bool.false_eq_true, if_false]
      simp [handleActive_is_idle, hcap]
    · simp only [hch, if_true]
      rcases hfin : finalizeSession t1 st with ⟨st1, out⟩
      cases out <;> simp [handleActive_is_idle, hcap]

lemma processTick_preserves_idleInv (cap : Nat) (a : NativeActivity)
    (t1 t2 : Int) (send : Option String) (st : EventTrackerState)
    (hinv : IdleInv st) :
    IdleInv (processTick cap a t1 t2 send st).event_state := by
  unfold processTick
  by_cases hcap : cap ≤ a.idle_seconds
  · rw [if_pos hcap]
    have h1 := handleIdle_fst t1 st
    rcases hh : handleIdle t1 st with ⟨st1, out⟩
    rw [hh] at h1
    simp only at h1
    have hst1 : IdleInv st1 := by
      rw [h1]
      by_cases h : st.is_idle
      · simp only [h, if_true]; exact hinv
      · simp only [h, Bool.false_eq_true, if_false]
        intro _; rfl
    cases out with
    | none => exact hst1
    | some c =>
        intro h
        rw [recordDelivery_is_idle] at h
        rw [recordDelivery_current_session]
        exact hst1 h
  · rw [if_neg hcap]
    cases hch : hasActivityChanged st a
    · simp only [hch, Bool.false_eq_true, if_false]
      intro h
      rw [handleActive_is_idle] at h
      cases h
    · simp only [hch, if_true]
      rcases hfin : finalizeSession t1 st with ⟨st1, out⟩
      cases out <;>
        exact fun h => Bool.noConfusion (handleActive_is_idle a t2 _ ▸ h)

lemma processTick_clobber (cap : Nat) (a : NativeActivity) (t1 t2 : Int)
    (send : Option String) (st : EventTrackerState) (hinv : IdleInv st) :
    (processTick cap a t1 t2 send st).clobber = false := by
  unfold processTick
  by_cases hcap : cap ≤ a.idle_seconds
  · rw [if_pos hcap]
    rcases hh : handleIdle t1 st with ⟨st1, out⟩
    cases out <;> rfl
  · rw [if_neg hcap]
    cases hch : hasActivityChanged st a
    · simp only [hch, Bool.false_eq_true, if_false]
      rw [updateHeartbeat_is_idle]
      by_cases h : st.is_idle
      · rw [h]
        have hn := hinv h
        simp [updateHeartbeat, hn]
      · simp [h]
    · simp only [hch, if_true]
      have h1 := finalizeSession_fst t1 st
      rcases hfin : finalizeSession t1 st with ⟨st1, out⟩
      rw [hfin] at h1
      simp only at h1
      cases out with
      | none => simp [h1, startSession_is_idle]
      | some c => simp [recordDelivery_current_session, h1, startSession_is_idle]

lemma processTick_idle_noop (cap : Nat) (a : NativeActivity) (t1 t2 : Int)
    (send : Option String) (st : EventTrackerState) (hidle : st.is_idle = true)
    (hcap : cap ≤ a.idle_seconds) :
    processTick cap a t1 t2 send st =
      { event_state := st, completed := none, clobber := false } := by
  unfold processTick
  rw [if_pos hcap]
  have hh : handleIdle t1 st = (st, none) := by simp [handleIdle, hidle]
  rw [hh]

lemma processTrace_clobber (cap : Nat) (inputs : List TickInput)
    (st : EventTrackerState) (hinv : IdleInv st) :
    (processTrace cap st inputs).clobber = false := by
  induction inputs generalizing st with
  | nil => rfl
  | cons i rest ih =>
      simp only [processTrace]
      rw [processTick_clobber cap i.activity i.t1 i.t2 i.send st hinv,
        ih _ (processTick_preserves_idleInv cap i.activity i.t1 i.t2 i.send st hinv)]
      rfl

lemma processTrace_idle_noop (cap : Nat) (inputs : List TickInput)
    (st : EventTrackerState) (hidle : st.is_idle = true)
    (hall : ∀ i ∈ inputs, cap ≤ i.activity.idle_seconds) :
    processTrace cap st inputs =
      { event_state := st, completed := [], clobber := false } := by
  induction inputs with
  | nil => rfl
  | cons i rest ih =>
      simp only [processTrace]
      rw [processTick_idle_noop cap i.activity i.t1 i.t2 i.send st hidle
        (hall i (by simp))]
      rw [ih (fun j hj => hall j (by simp [hj]))]
      rfl

/-- C1: along every run of the event-based poll loop starting from the
freshly configured tracker (`set_idle_threshold` then `set_tracking(true)`
on a new tracker, as `start_event_based_tracking` does), `start_session`
is never applied over a live session: whenever a tick installs a new
session, `finalize_session` has already ended the previous one in that
same tick (producing a `CompletedSession` or discarding it by the < 1 s
rule), as witnessed by the `clobber` instrumentation of `processTick`
staying `false` for the whole trace. -/
theorem no_silent_session_overwrite (s cap : Nat) (inputs : List TickInput) :
    (processTrace cap
        (setTracking true (setIdleThreshold s Tracker.new)).event_state
        inputs).clobber = false :=
  processTrace_clobber cap inputs _ (fun h => Bool.noConfusion h)

/-- C5: idle handling is idempotent.  A tick whose snapshot has
`idle_seconds ≥ cap` (the loop's idle threshold) performs the idle
transition; afterwards any run of further consecutive ticks whose
snapshots all have `idle_seconds ≥ cap` emits no `CompletedSession` and
leaves the event state — in particular any `last_heartbeat` — entirely
unchanged. -/
theorem idle_idempotent (cap : Nat) (a : NativeActivity) (t1 t2 : Int)
    (send : Option String) (st : EventTrackerState) (inputs : List TickInput)
    (h : cap ≤ a.idle_seconds)
    (hall : ∀ i ∈ inputs, cap ≤ i.activity.idle_seconds) :
    processTrace cap (processTick cap a t1 t2 send st).event_state inputs =
      { event_state := (processTick cap a t1 t2 send st).event_state
        completed := [], clobber := false } :=
  processTrace_idle_noop cap inputs _
    (by rw [processTick_is_idle]; exact decide_eq_true h) hall

/-- C5 witness: from a live session, one tick at 400 s of idle (threshold
300 s) performs the idle transition; a further idle tick emits nothing and
leaves the state unchanged. -/
theorem idle_idempotent_witness :
    300 ≤ idle400Snap.idle_seconds ∧
    processTrace 300
        (processTick 300 idle400Snap 2000 2000 none sessionState0).event_state
        [{ activity := idle400Snap, t1 := 3000, t2 := 3000, send := none }] =
      { event_state :=
          (processTick 300 idle400Snap 2000 2000 none sessionState0).event_state
        completed := [], clobber := false } :=
  ⟨by decide,
   idle_idempotent 300 idle400Snap 2000 2000 none sessionState0 _ (by decide)
     (by decide)⟩

/-- C2 counterexample: with the poll loop started with a captured idle
threshold of 300 s, calling `set_idle_threshold 10` updates the stored
threshold to 10, yet the next tick with a snapshot idling 50 s ≥ 10 s does
not perform the idle transition (the tick compares against the captured
300, not the new 10): the state ends not idle and no session is
finalized. -/
theorem setIdleThreshold_stale_tick :
    (setIdleThreshold 10 Tracker.new).event_state.idle_threshold_seconds = 10 ∧
    10 ≤ idle50Snap.idle_seconds ∧
    (processTick 300 idle50Snap 1000 1000 none
        (setIdleThreshold 10 Tracker.new).event_state).event_state.is_idle
      = false ∧
    (processTick 300 idle50Snap 1000 1000 none
        (setIdleThreshold 10 Tracker.new).event_state).completed = none := by
  decide

/-- C2 amended: `set_idle_threshold(s)` updates the stored
`idle_threshold_seconds` of both tracker states to `s`, but a subsequent
tick of the running event-based poll loop decides the idle transition by
comparing the snapshot's `idle_seconds` against the loop's captured
threshold `cap` (fixed when the loop started), not against `s`: after the
tick the idle flag equals `decide (cap ≤ idle_seconds)` whatever `s` is. -/
theorem setIdleThreshold_next_tick (s : Nat) (tr : Tracker) (cap : Nat)
    (a : NativeActivity) (t1 t2 : Int) (send : Option String) :
    (setIdleThreshold s tr).event_state.idle_threshold_seconds = s ∧
    (setIdleThreshold s tr).state.idle_threshold_seconds = s ∧
    (processTick cap a t1 t2 send
        (setIdleThreshold s tr).event_state).event_state.is_idle =
      decide (cap ≤ a.idle_seconds) :=
  ⟨rfl, rfl, processTick_is_idle cap a t1 t2 send _⟩

lemma updateHeartbeat_sessions_sent (t : Int) (st : EventTrackerState) :
    (updateHeartbeat t st).sessions_sent = st.sessions_sent := by
  unfold updateHeartbeat
  cases st.current_session <;> rfl

lemma updateHeartbeat_last_send_error (t : Int) (st : EventTrackerState) :
    (updateHeartbeat t st).last_send_error = st.last_send_error := by
  unfold updateHeartbeat
  cases st.current_session <;> rfl

lemma applyOp_fields (t : Int) (st : EventTrackerState) :
    ∀ op, op ≠ Op.recordSendSuccess → (∀ e, op ≠ Op.recordSendError e) →
      (applyOp op t st).sessions_sent = st.sessions_sent ∧
      (applyOp op t st).last_send_error = st.last_send_error := by
  intro op hs he
  cases op with
  | startSession a => exact ⟨rfl, rfl⟩
  | updateHeartbeat =>
      exact ⟨updateHeartbeat_sessions_sent t st,
        updateHeartbeat_last_send_error t st⟩
  | finalizeSession =>
      have h : applyOp Op.finalizeSession t st = { st with current_session := none } := by
        rw [show applyOp Op.finalizeSession t st = (finalizeSession t st).1 from rfl,
          finalizeSession_fst]
      rw [h]
      exact ⟨rfl, rfl⟩
  | handleIdle =>
      rw [show applyOp Op.handleIdle t st = (handleIdle t st).1 from rfl,
        handleIdle_fst]
      by_cases hi : st.is_idle <;> simp [hi]
  | handleActive a =>
      rw [show applyOp (Op.handleActive a) t st = handleActive a t st from rfl]
      unfold handleActive
      by_cases hi : st.is_idle <;> simp [hi, startSession]
  | setTracking b => exact ⟨rfl, rfl⟩
  | setIdleThreshold s2 => exact ⟨rfl, rfl⟩
  | recordSendSuccess => exact absurd rfl hs
  | recordSendError e => exact absurd rfl (he e)

/-- C8: the delivered-sessions counter is monotonically non-decreasing
under every tracker operation; `record_send_success` increments it by
exactly one and clears `last_send_error`, `record_send_error` stores the
message and leaves the counter unchanged, and no other operation modifies
either field. -/
theorem deliveryCounter_spec (t : Int) (st : EventTrackerState) :
    (∀ op, st.sessions_sent ≤ (applyOp op t st).sessions_sent) ∧
    ((applyOp Op.recordSendSuccess t st).sessions_sent = st.sessions_sent + 1 ∧
      (applyOp Op.recordSendSuccess t st).last_send_error = none) ∧
    (∀ e, (applyOp (Op.recordSendError e) t st).sessions_sent = st.sessions_sent ∧
      (applyOp (Op.recordSendError e) t st).last_send_error = some e) ∧
    (∀ op, op ≠ Op.recordSendSuccess → (∀ e, op ≠ Op.recordSendError e) →
      (applyOp op t st).sessions_sent = st.sessions_sent ∧
      (applyOp op t st).last_send_error = st.last_send_error) := by
  refine ⟨?_, ⟨rfl, rfl⟩, fun e => ⟨rfl, rfl⟩, applyOp_fields t st⟩
  intro op
  by_cases hs : op = Op.recordSendSuccess
  · subst hs
    exact Nat.le_succ _
  · by_cases he : ∀ e, op ≠ Op.recordSendError e
    · exact le_of_eq ((applyOp_fields t st op hs he).1).symm
    · push_neg at he
      obtain ⟨e, rfl⟩ := he
      exact Nat.le_refl _

/-- C8 witness: a heartbeat operation leaves both the counter and the
last-error slot untouched. -/
theorem deliveryCounter_spec_witness :
    (applyOp Op.updateHeartbeat 3 sessionState0).sessions_sent =
        sessionState0.sessions_sent ∧
    (applyOp Op.updateHeartbeat 3 sessionState0).last_send_error =
        sessionState0.last_send_error :=
  (deliveryCounter_spec 3 sessionState0).2.2.2 Op.updateHeartbeat (by decide)
    (fun e h => Op.noConfusion h)

lemma hbInv_mono {st : EventTrackerState} {t t' : Int} (h : HbInv st t)
    (ht : t ≤ t') : HbInv st t' :=
  fun s hs => ⟨(h s hs).1, le_trans (h s hs).2 ht⟩

lemma applyOp_hbInv {st : EventTrackerState} {t t' : Int} (op : Op)
    (hinv : HbInv st t) (ht : t ≤ t') : HbInv (applyOp op t' st) t' := by
  cases op with
  | startSession a =>
      intro s hs
      simp only [applyOp, startSession] at hs
      cases Option.some.inj hs
      exact ⟨le_refl _, le_refl _⟩
  | updateHeartbeat =>
      intro s hs
      simp only [applyOp] at hs
      unfold updateHeartbeat at hs
      cases hcs : st.current_session with
      | none =>
          rw [hcs] at hs
          exact absurd (hcs.symm.trans hs) (by simp)
      | some s0 =>
          rw [hcs] at hs
          simp only at hs
          cases Option.some.inj hs
          obtain ⟨h1, h2⟩ := hinv s0 hcs
          exact ⟨le_trans h1 (le_trans h2 ht), le_refl _⟩
  | finalizeSession =>
      intro s hs
      rw [show applyOp Op.finalizeSession t' st = (finalizeSession t' st).1 from rfl,
        finalizeSession_fst] at hs
      exact absurd hs (by simp)
  | handleIdle =>
      intro s hs
      rw [show applyOp Op.handleIdle t' st = (handleIdle t' st).1 from rfl,
        handleIdle_fst] at hs
      by_cases hi : st.is_idle
      · rw [if_pos hi] at hs
        exact hbInv_mono hinv ht s hs
      · rw [if_neg hi] at hs
        exact absurd hs (by simp)
  | handleActive a =>
      intro s hs
      rw [show applyOp (Op.handleActive a) t' st = handleActive a t' st from rfl] at hs
      unfold handleActive at hs
      by_cases hi : st.is_idle
      · rw [if_pos hi] at hs
        simp only [startSession] at hs
        cases Option.some.inj hs
        exact ⟨le_refl _, le_refl _⟩
      · rw [if_neg hi] at hs
        exact hbInv_mono hinv ht s hs
  | setTracking b => exact fun s hs => hbInv_mono hinv ht s hs
  | setIdleThreshold s2 => exact fun s hs => hbInv_mono hinv ht s hs
  | recordSendSuccess => exact fun s hs => hbInv_mono hinv ht s hs
  | recordSendError e => exact fun s hs => hbInv_mono hinv ht s hs

lemma runOps_hbInv : ∀ (ops : List (Op × Int)) (st : EventTrackerState) (t : Int),
    HbInv st t → timesMono (t :: ops.map Prod.snd) = true →
    ∃ t', HbInv (runOps st ops) t' := by
  intro ops
  induction ops with
  | nil => exact fun st t h _ => ⟨t, h⟩
  | cons p rest ih =>
      intro st t h hm
      obtain ⟨op, t1⟩ := p
      have hm' : (t ≤ t1) ∧ timesMono (t1 :: rest.map Prod.snd) = true := by
        simpa [timesMono] using hm
      exact ih (applyOp op t1 st) t1 (applyOp_hbInv op h hm'.1) hm'.2

/-- C9: along every sequence of tracker operations with non-decreasing
clock readings, starting from the fresh tracker, any live session
satisfies `last_heartbeat ≥ start_time` (`start_session` makes them equal,
`update_heartbeat` only moves the heartbeat to the current, later time,
leaving `start_time` unchanged). -/
theorem heartbeat_ge_start (ops : List (Op × Int))
    (hm : timesMono (ops.map Prod.snd) = true) (s : ActivitySession)
    (hs : (runOps Tracker.new.event_state ops).current_session = some s) :
    s.start_time ≤ s.last_heartbeat := by
  cases ops with
  | nil => exact absurd hs (by simp [runOps, Tracker.new])
  | cons p rest =>
      obtain ⟨op, t1⟩ := p
      have h0 : HbInv Tracker.new.event_state t1 := by
        intro s' hs'
        exact absurd hs' (by simp [Tracker.new])
      have hm' : timesMono (t1 :: ((op, t1) :: rest).map Prod.snd) = true := by
        simp only [List.map_cons] at hm ⊢
        simp only [timesMono, Bool.and_eq_true, decide_eq_true_eq]
        exact ⟨le_refl _, hm⟩
      obtain ⟨t', hinv⟩ :=
        runOps_hbInv ((op, t1) :: rest) Tracker.new.event_state t1 h0 hm'
      exact (hinv s hs).1

/-- C9 witness: starting a session at t = 5 and heartbeating at t = 9
leaves a live session with `start_time = 5 ≤ 9 = last_heartbeat`. -/
theorem heartbeat_ge_start_witness :
    timesMono (witnessOps.map Prod.snd) = true ∧
    (runOps Tracker.new.event_state witnessOps).current_session =
      some witnessSession ∧
    witnessSession.start_time ≤ witnessSession.last_heartbeat :=
  ⟨by decide, by decide,
   heartbeat_ge_start witnessOps (by decide) witnessSession (by decide)⟩

/-- C10: when tracking is disabled, `get_current_activity` returns `none`
without querying the platform probe, and the whole per-tick body of the
poll loop is skipped: the tracker is unchanged and no `CompletedSession`
is produced. -/
theorem tracking_disabled_skips (cap : Nat) (probe : Option NativeActivity)
    (t1 t2 t3 : Int) (send : Option String) (tr : Tracker)
    (h : tr.state.is_tracking = false) :
    getCurrentActivity tr.state probe = (none, false) ∧
    driverTick cap probe t1 t2 t3 send tr =
      { tracker := tr, completed := none, probed := false } := by
  have hg : getCurrentActivity tr.state probe = (none, false) := by
    simp [getCurrentActivity, h]
  refine ⟨hg, ?_⟩
  unfold driverTick
  rw [hg]

/-- C10 witness: on the paused tracker, even with a probe snapshot
available, the tick does nothing and never queries the probe. -/
theorem tracking_disabled_skips_witness :
    (setTracking false Tracker.new).state.is_tracking = false ∧
    getCurrentActivity (setTracking false Tracker.new).state (some editorSnap) =
      (none, false) ∧
    driverTick 300 (some editorSnap) 0 0 0 none (setTracking false Tracker.new) =
      { tracker := setTracking false Tracker.new, completed := none
        probed := false } :=
  ⟨rfl,
   (tracking_disabled_skips 300 (some editorSnap) 0 0 0 none _ rfl).1,
   (tracking_disabled_skips 300 (some editorSnap) 0 0 0 none _ rfl).2⟩

end ActivityTracker
